import Mathlib

/-!
Shallow embedding of the IncidentTriage-pgw server core:
the rule-based / remote classification providers (server/services/ai.ts),
the incident-creation handler with its audit diff (server/routes.ts),
the export/import endpoints, the analytics aggregator
(server/storage.ts, getAnalytics), and the risk-zone scorer
(server/routes.ts, GET /api/riskmap/topzones).

Machine reals of the source (JS doubles) are modelled as exact rationals;
the one transcendental, `Math.exp(-daysAgo/30)`, is kept as an explicit
function parameter `expDecay` of the risk environment so that every
statement about the scorer is parametric in the decay table.
-/

namespace IncidentTriage

/-- The six incident categories of `categoryEnum` in shared/schema.ts. -/
inductive Category
  | Leak | Odor | Outage | Billing | Meter | Other
deriving DecidableEq, Repr

/-- The three severities of `severityEnum` in shared/schema.ts. -/
inductive Severity
  | Low | Medium | High
deriving DecidableEq, Repr

/-- An enrichment request (`enrichRequestSchema`): optional address and a
description. -/
structure EnrichRequest where
  address : Option String
  description : String
deriving DecidableEq, Repr

/-- The classification result shape (`enrichResponseSchema`). -/
structure EnrichResponse where
  category : Category
  severity : Severity
  summary : String
  nextSteps : List String
  customerMessage : String
deriving DecidableEq, Repr

/-- JS `haystack.includes(needle)`: substring membership, character-exact. -/
def containsKw (haystack needle : String) : Bool :=
  decide (needle.data <:+: haystack.data)

/-- JS `s.toLowerCase()`, modelled character-wise (the keyword tests of the
rule engine only involve ASCII). -/
def lowerStr (s : String) : String :=
  ⟨s.data.map Char.toLower⟩

/-- Wire name of a category, as stored in the text columns. -/
def Category.name : Category → String
  | .Leak => "Leak"
  | .Odor => "Odor"
  | .Outage => "Outage"
  | .Billing => "Billing"
  | .Meter => "Meter"
  | .Other => "Other"

/-- Wire name of a severity. -/
def Severity.name : Severity → String
  | .Low => "Low"
  | .Medium => "Medium"
  | .High => "High"

/-- The category/severity keyword pass of `DummyAIService.enrichIncident`
(server/services/ai.ts): first-match classification over the lower-cased
description, in the fixed source order. -/
def dummyClassifyBase (descLower : String) : Category × Severity :=
  if containsKw descLower "gas" || containsKw descLower "leak" then
    (.Leak, .High)
  else if containsKw descLower "power" || containsKw descLower "outage" ||
      containsKw descLower "electric" then
    (.Outage, .Medium)
  else if containsKw descLower "odor" || containsKw descLower "smell" then
    (.Odor, .Medium)
  else if containsKw descLower "bill" || containsKw descLower "charge" ||
      containsKw descLower "payment" then
    (.Billing, .Low)
  else if containsKw descLower "meter" || containsKw descLower "reading" then
    (.Meter, .Medium)
  else
    (.Other, .Low)

/-- The severity-override pass that runs after the category pass:
"emergency"/"urgent"/"dangerous" force High, else "minor"/"small" force
Low, else the base severity stands. -/
def dummyAdjustSeverity (descLower : String) (base : Severity) : Severity :=
  if containsKw descLower "emergency" || containsKw descLower "urgent" ||
      containsKw descLower "dangerous" then
    .High
  else if containsKw descLower "minor" || containsKw descLower "small" then
    .Low
  else
    base

/-- The static next-steps table of `DummyAIService`, keyed by category. -/
def dummyNextSteps : Category → List String
  | .Leak =>
    ["Dispatch emergency response team immediately",
     "Advise customer to evacuate premises and avoid ignition sources",
     "Contact local fire department for safety assessment",
     "Schedule follow-up inspection within 24 hours",
     "Document incident for regulatory compliance"]
  | .Outage =>
    ["Check system status and identify affected areas",
     "Dispatch field technician to investigate",
     "Notify customers of estimated restoration time",
     "Monitor restoration progress",
     "Confirm service restoration"]
  | .Odor =>
    ["Dispatch technician for immediate assessment",
     "Advise customer on safety precautions",
     "Investigate source of odor",
     "Test for gas concentrations if applicable",
     "Schedule follow-up if needed"]
  | .Billing =>
    ["Review customer account and billing history",
     "Investigate reported billing discrepancy",
     "Contact customer with findings",
     "Process adjustment if warranted",
     "Document resolution"]
  | .Meter =>
    ["Schedule meter inspection appointment",
     "Verify meter readings and functionality",
     "Replace meter if faulty",
     "Update customer account records",
     "Confirm accurate billing going forward"]
  | .Other =>
    ["Assess incident details and classify properly",
     "Contact customer for additional information",
     "Assign to appropriate department",
     "Schedule follow-up as needed"]

/-- The static customer-message table of `DummyAIService`, keyed by
category. -/
def dummyCustomerMessage : Category → String
  | .Leak => "Thank you for reporting this gas leak. For your safety, please evacuate the premises immediately and avoid using any electrical switches or open flames. Our emergency response team has been dispatched and will arrive shortly. Please wait at a safe distance and call 911 if conditions worsen."
  | .Outage => "We have received your power outage report and are investigating the issue. Our technicians are working to restore service as quickly as possible. We will keep you updated on our progress and estimated restoration time."
  | .Odor => "Thank you for reporting this odor concern. For your safety, please ensure adequate ventilation and avoid potential ignition sources. A technician has been dispatched to investigate and will contact you upon arrival."
  | .Billing => "We have received your billing inquiry and will review your account details. A customer service representative will contact you within one business day with our findings and any necessary adjustments."
  | .Meter => "We have scheduled a meter inspection to address your concern. A technician will contact you to arrange a convenient appointment time. Thank you for bringing this to our attention."
  | .Other => "Thank you for contacting us. We have received your report and are reviewing it. A member of our team will be in touch within the next business day to address your concern."

/-- The synthesized summary: category name, then the first 80 characters
of the description, with an ellipsis when truncated. -/
def dummySummary (category : Category) (description : String) : String :=
  s!"{category.name} incident reported. " ++ (⟨description.data.take 80⟩ : String) ++
    (if description.data.length > 80 then "..." else "")

/-- `DummyAIService.enrichIncident`: the deterministic rule engine. -/
def dummyEnrichIncident (request : EnrichRequest) : EnrichResponse :=
  let descLower := lowerStr request.description
  let base := dummyClassifyBase descLower
  let category := base.1
  let severity := dummyAdjustSeverity descLower base.2
  { category := category
    severity := severity
    summary := dummySummary category request.description
    nextSteps := dummyNextSteps category
    customerMessage := dummyCustomerMessage category }

/-! ## Remote classification provider (`OpenAIService.enrichIncident`) -/

/-- Abstract JSON values, for the body the remote model returns. -/
inductive JsonVal
  | null
  | bool (b : Bool)
  | num (q : ℚ)
  | str (s : String)
  | arr (elems : List JsonVal)
  | obj (fields : List (String × JsonVal))

/-- Object field lookup (first binding wins, as in a parsed JS object). -/
def jsonGet (fields : List (String × JsonVal)) (key : String) : Option JsonVal :=
  (fields.find? (fun f => f.1 = key)).map (fun f => f.2)

/-- Read a JSON string. -/
def jsonStr : JsonVal → Option String
  | .str s => some s
  | _ => none

/-- Parse a category wire name (`categoryEnum` of zod). -/
def parseCategory : String → Option Category
  | "Leak" => some .Leak
  | "Odor" => some .Odor
  | "Outage" => some .Outage
  | "Billing" => some .Billing
  | "Meter" => some .Meter
  | "Other" => some .Other
  | _ => none

/-- Parse a severity wire name (`severityEnum` of zod). -/
def parseSeverity : String → Option Severity
  | "Low" => some .Low
  | "Medium" => some .Medium
  | "High" => some .High
  | _ => none

/-- Read a JSON array of strings (`z.array(z.string())`). -/
def jsonStrList : JsonVal → Option (List String)
  | .arr elems => elems.mapM jsonStr
  | _ => none

/-- `enrichResponseSchema.parse`: the zod validation of the five response
fields, with the two enum checks and the 600-character caps on summary and
customerMessage. Any failure is `none` (zod throws). -/
def enrichResponseParse (j : JsonVal) : Option EnrichResponse :=
  match j with
  | .obj fields => do
    let category ← (jsonGet fields "category").bind jsonStr |>.bind parseCategory
    let severity ← (jsonGet fields "severity").bind jsonStr |>.bind parseSeverity
    let summary ← (jsonGet fields "summary").bind jsonStr
    if summary.data.length > 600 then none else
    let nextSteps ← (jsonGet fields "nextSteps").bind jsonStrList
    let customerMessage ← (jsonGet fields "customerMessage").bind jsonStr
    if customerMessage.data.length > 600 then none else
    pure { category, severity, summary, nextSteps, customerMessage }
  | _ => none

/-- Outcome of the remote chat-completion call: either the request threw
(network error, timeout, non-2xx), or it returned with
`choices[0].message.content` (which may be null). -/
inductive RemoteOutcome
  | netErr
  | reply (content : Option String)

/-- `OpenAIService.enrichIncident`: try the remote call, extract the
content, `JSON.parse` it (modelled by the `parseJson` argument), validate
with `enrichResponseSchema`; any failure along the way is caught and the
rule engine's answer for the same request is returned instead. -/
def openAIEnrichIncident (parseJson : String → Option JsonVal)
    (remote : RemoteOutcome) (request : EnrichRequest) : EnrichResponse :=
  match remote with
  | .netErr => dummyEnrichIncident request
  | .reply none => dummyEnrichIncident request
  | .reply (some content) =>
    match parseJson content with
    | none => dummyEnrichIncident request
    | some j =>
      match enrichResponseParse j with
      | none => dummyEnrichIncident request
      | some validated => validated

/-- Response of `POST /api/enrich`: 200 with a classification, or 400 when
`enrichRequestSchema.parse` rejected the body. -/
inductive EnrichRouteResponse
  | ok (result : EnrichResponse)
  | badRequest
deriving DecidableEq

/-- The `POST /api/enrich` handler: parse the body, call the provider,
reply 200 with the result; the catch only fires for body-validation
failures because the provider itself never throws. -/
def enrichRoute (parseJson : String → Option JsonVal) (remote : RemoteOutcome)
    (body : Option EnrichRequest) : EnrichRouteResponse :=
  match body with
  | none => .badRequest
  | some request => .ok (openAIEnrichIncident parseJson remote request)

/-! ## Audit diff (`POST /api/incidents`, server/routes.ts) -/

/-- The five compared fields, as JS values: the before side comes from the
unvalidated `aiSuggestionRaw` of the request body, the after side from the
saved incident row (with `nextSteps` re-parsed from `nextStepsJson`). -/
structure EnrichFields where
  category : String
  severity : String
  summary : String
  nextSteps : List String
  customerMessage : String
deriving DecidableEq, Repr

/-- JSON string escaping of `JSON.stringify` restricted to the characters
that occur in next-step texts (backslash and double quote). -/
def jsEscapeChar (c : Char) : List Char :=
  if c = '\\' || c = '"' then ['\\', c] else [c]

/-- `JSON.stringify` of a string. -/
def stringifyStr (s : String) : String :=
  ⟨'"' :: (s.data.flatMap jsEscapeChar) ++ ['"']⟩

/-- `JSON.stringify` of an array of strings, as used on both sides of the
nextSteps comparison. -/
def stringifyStrList (l : List String) : String :=
  "[" ++ String.intercalate "," (l.map stringifyStr) ++ "]"

/-- The changed-field computation of `POST /api/incidents`: push each of
the five names, in source order, when the field values differ; nextSteps
is compared by `JSON.stringify` equality of the two lists. -/
def changedFields (before after : EnrichFields) : List String :=
  (if before.category ≠ after.category then ["category"] else []) ++
  (if before.severity ≠ after.severity then ["severity"] else []) ++
  (if before.summary ≠ after.summary then ["summary"] else []) ++
  (if stringifyStrList before.nextSteps ≠ stringifyStrList after.nextSteps then
    ["nextSteps"] else []) ++
  (if before.customerMessage ≠ after.customerMessage then ["customerMessage"] else [])

/-- Specification-side test: does the named field differ between the two
snapshots (nextSteps by serialized equality)? -/
def fieldDiffers (before after : EnrichFields) : String → Bool
  | "category" => decide (before.category ≠ after.category)
  | "severity" => decide (before.severity ≠ after.severity)
  | "summary" => decide (before.summary ≠ after.summary)
  | "nextSteps" => decide (stringifyStrList before.nextSteps ≠ stringifyStrList after.nextSteps)
  | "customerMessage" => decide (before.customerMessage ≠ after.customerMessage)
  | _ => false

/-- The fixed field-check order of the diff. -/
def diffFieldOrder : List String :=
  ["category", "severity", "summary", "nextSteps", "customerMessage"]

/-! ## Incident store (shared/schema.ts rows, server/storage.ts) -/

/-- An incidents row. JSON-serialized text columns (`nextStepsJson`) are
modelled as the list they serialize; timestamps are epoch milliseconds. -/
structure Incident where
  id : ℕ
  address : Option String
  description : String
  category : Category
  severity : Severity
  summary : String
  nextSteps : List String
  customerMessage : String
  lat : Option String
  lng : Option String
  createdAt : ℕ
  updatedAt : ℕ
deriving DecidableEq, Repr

/-- The validated insert shape (`insertIncidentSchema`): the row minus
id/createdAt/updatedAt, with the category/severity enums enforced. -/
structure InsertIncident where
  address : Option String
  description : String
  category : Category
  severity : Severity
  summary : String
  nextSteps : List String
  customerMessage : String
  lat : Option String
  lng : Option String
deriving DecidableEq, Repr

/-- An ai_suggestions row. -/
structure AiSuggestion where
  id : ℕ
  incidentId : ℕ
  rawJson : String
  model : String
  promptVersion : String
  createdAt : ℕ
deriving DecidableEq, Repr

/-- An audits row; `changedFieldsJson` is modelled as the list it
serializes, so the SQL `json_array_length` of the analytics query is its
length. -/
structure Audit where
  id : ℕ
  incidentId : ℕ
  beforeJson : String
  afterJson : String
  changedFields : List String
  createdAt : ℕ
deriving DecidableEq, Repr

/-- The three tables owned by the incident store, with the identity
counters of the generated primary keys. -/
structure Store where
  incidents : List Incident
  suggestions : List AiSuggestion
  audits : List Audit
  nextIncidentId : ℕ
  nextSuggestionId : ℕ
  nextAuditId : ℕ
deriving DecidableEq, Repr

/-- A store with empty tables and identity counters starting at 1
(`generatedByDefaultAsIdentity`). -/
def emptyStore : Store :=
  { incidents := [], suggestions := [], audits := []
    nextIncidentId := 1, nextSuggestionId := 1, nextAuditId := 1 }

/-- The `insertIncident.address || null` coercion of
`DatabaseStorage.createIncident`: the empty string is the only falsy
string, so it (and absence) become NULL. -/
def coerceAddress : Option String → Option String
  | none => none
  | some s => if s = "" then none else some s

/-- `DatabaseStorage.createIncident`: assign the identity and the two
timestamps, apply the address coercion, append the row. -/
def Store.createIncident (s : Store) (d : InsertIncident) (now : ℕ) :
    Store × Incident :=
  let inc : Incident :=
    { id := s.nextIncidentId
      address := coerceAddress d.address
      description := d.description
      category := d.category
      severity := d.severity
      summary := d.summary
      nextSteps := d.nextSteps
      customerMessage := d.customerMessage
      lat := d.lat
      lng := d.lng
      createdAt := now
      updatedAt := now }
  ({ s with incidents := s.incidents ++ [inc],
            nextIncidentId := s.nextIncidentId + 1 }, inc)

/-- `DatabaseStorage.getIncident`. -/
def Store.getIncident (s : Store) (id : ℕ) : Option Incident :=
  s.incidents.find? (fun i => i.id = id)

/-- `DatabaseStorage.createAiSuggestion` (identity and timestamp assigned
by the database). -/
def Store.createAiSuggestion (s : Store) (incidentId : ℕ) (rawJson model promptVersion : String)
    (now : ℕ) : Store × AiSuggestion :=
  let sug : AiSuggestion :=
    { id := s.nextSuggestionId, incidentId, rawJson, model, promptVersion, createdAt := now }
  ({ s with suggestions := s.suggestions ++ [sug],
            nextSuggestionId := s.nextSuggestionId + 1 }, sug)

/-- `DatabaseStorage.createAudit`. -/
def Store.createAudit (s : Store) (incidentId : ℕ) (beforeJson afterJson : String)
    (changed : List String) (now : ℕ) : Store × Audit :=
  let a : Audit :=
    { id := s.nextAuditId, incidentId, beforeJson, afterJson,
      changedFields := changed, createdAt := now }
  ({ s with audits := s.audits ++ [a], nextAuditId := s.nextAuditId + 1 }, a)

/-- The after-snapshot built by the create handler from the saved row
(`nextSteps` re-parsed from the serialized column). -/
def fieldsOfIncident (inc : Incident) : EnrichFields :=
  { category := inc.category.name
    severity := inc.severity.name
    summary := inc.summary
    nextSteps := inc.nextSteps
    customerMessage := inc.customerMessage }

/-- `JSON.stringify` of a five-field snapshot object, used for the
before/after columns of the audit row. -/
def stringifyFields (f : EnrichFields) : String :=
  "\x7b\"category\":" ++ stringifyStr f.category ++
  ",\"severity\":" ++ stringifyStr f.severity ++
  ",\"summary\":" ++ stringifyStr f.summary ++
  ",\"nextSteps\":" ++ stringifyStrList f.nextSteps ++
  ",\"customerMessage\":" ++ stringifyStr f.customerMessage ++ "\x7d"

/-- Response of `POST /api/incidents`. -/
inductive CreateResponse
  | ok (incident : Incident)
  | badRequest
deriving DecidableEq, Repr

/-- The `POST /api/incidents` handler. `body = none` stands for an
`insertIncidentSchema.parse` failure (400). When `aiSuggestionRaw` is
present the suggestion and audit rows are written inside a nested
try/catch whose failure (modelled by the two flags, a throw at the
respective insert) is swallowed: the incident insert is not transactional
with them and is never rolled back. -/
def postIncident (s : Store) (now : ℕ) (body : Option InsertIncident)
    (sugRaw : Option EnrichFields) (sugRawJson modelName : String)
    (sugWriteFails auditWriteFails : Bool) : Store × CreateResponse :=
  match body with
  | none => (s, .badRequest)
  | some data =>
    let created := s.createIncident data now
    let s1 := created.1
    let inc := created.2
    match sugRaw with
    | none => (s1, .ok inc)
    | some before =>
      if sugWriteFails then (s1, .ok inc)
      else
        let s2 := (s1.createAiSuggestion inc.id sugRawJson modelName "v1.0" now).1
        if auditWriteFails then (s2, .ok inc)
        else
          let after := fieldsOfIncident inc
          let s3 := (s2.createAudit inc.id (stringifyFields before)
            (stringifyFields after) (changedFields before after) now).1
          (s3, .ok inc)

/-! ## Export / import (`GET /api/incidents/:id/export.json`,
`POST /api/incidents/import`) -/

/-- The per-incident export shape: the row plus its linked suggestion and
audit rows. -/
structure ExportPayload where
  incident : Incident
  aiSuggestions : List AiSuggestion
  audits : List Audit
deriving DecidableEq, Repr

/-- `GET /api/incidents/:id/export.json`: 404 (`none`) when the id is
unknown, otherwise the row with its linked records. (The descending
createdAt ordering of the linked records is irrelevant to the claims and
left as table order.) -/
def Store.exportIncident (s : Store) (id : ℕ) : Option ExportPayload :=
  match s.getIncident id with
  | none => none
  | some inc =>
    some { incident := inc
           aiSuggestions := s.suggestions.filter (fun x => x.incidentId = id)
           audits := s.audits.filter (fun x => x.incidentId = id) }

/-- The `const { id, createdAt, updatedAt, ...insertData }` destructuring
of the import loop: every other field of the exported row is re-inserted
verbatim. -/
def insertOfIncident (inc : Incident) : InsertIncident :=
  { address := inc.address
    description := inc.description
    category := inc.category
    severity := inc.severity
    summary := inc.summary
    nextSteps := inc.nextSteps
    customerMessage := inc.customerMessage
    lat := inc.lat
    lng := inc.lng }

/-- One iteration of the import loop. The truthiness guard
`incidentData.incident?.id` only consults the store when the id is
nonzero; a throw anywhere in the item (modelled by `fails`, a throw at the
incident insert) is caught per item and counted as skipped. Returns the
updated store and whether the item was inserted. -/
def importOne (s : Store) (now : ℕ) (item : ExportPayload) (fails : Bool) :
    Store × Bool :=
  if item.incident.id ≠ 0 ∧ (s.getIncident item.incident.id).isSome then
    (s, false)
  else if fails then
    (s, false)
  else
    let created := s.createIncident (insertOfIncident item.incident) now
    let s1 := created.1
    let newInc := created.2
    let s2 := item.aiSuggestions.foldl
      (fun st sug => (st.createAiSuggestion newInc.id sug.rawJson sug.model
        sug.promptVersion now).1) s1
    let s3 := item.audits.foldl
      (fun st a => (st.createAudit newInc.id a.beforeJson a.afterJson
        a.changedFields now).1) s2
    (s3, true)

/-- The `{inserted, skipped, total}` response of the import route. -/
structure ImportResult where
  inserted : ℕ
  skipped : ℕ
  total : ℕ
deriving DecidableEq, Repr

/-- The import loop: fold over the items, counting one of
inserted/skipped per item; `failOracle k` says whether item `k` throws. -/
def importLoop (now : ℕ) (failOracle : ℕ → Bool) :
    List ExportPayload → Store → ℕ → ℕ → ℕ → Store × ℕ × ℕ
  | [], s, _, inserted, skipped => (s, inserted, skipped)
  | item :: rest, s, k, inserted, skipped =>
    let step := importOne s now item (failOracle k)
    if step.2 then importLoop now failOracle rest step.1 (k + 1) (inserted + 1) skipped
    else importLoop now failOracle rest step.1 (k + 1) inserted (skipped + 1)

/-- `POST /api/incidents/import`. -/
def Store.importIncidents (s : Store) (now : ℕ) (items : List ExportPayload)
    (failOracle : ℕ → Bool) : Store × ImportResult :=
  let r := importLoop now failOracle items s 0 0 0
  (r.1, { inserted := r.2.1, skipped := r.2.2, total := items.length })

/-- Equality of the exported field values the round-trip claim lists:
address, description, category, severity, summary, nextSteps and
customerMessage (identity and the two timestamps may differ). -/
def sameCoreFields (a b : Incident) : Prop :=
  a.address = b.address ∧ a.description = b.description ∧
  a.category = b.category ∧ a.severity = b.severity ∧
  a.summary = b.summary ∧ a.nextSteps = b.nextSteps ∧
  a.customerMessage = b.customerMessage

instance (a b : Incident) : Decidable (sameCoreFields a b) := by
  unfold sameCoreFields; infer_instance

/-! ## Analytics (`DatabaseStorage.getAnalytics`, avgChangedFields) -/

/-- `Math.round(x * 100) / 100`, the two-decimal rounding applied to the
averaged value (and to risk-zones scores). `round` on ℚ is ⌊x + 1/2⌋,
which is exactly `Math.round`. -/
def round2 (q : ℚ) : ℚ :=
  (round (q * 100) : ℤ) / 100

/-- Is the incident's creation timestamp inside the inclusive window
(`gte`/`lte` of the query)? -/
def inWindow (fromMs toMs : ℕ) (i : Incident) : Bool :=
  decide (fromMs ≤ i.createdAt ∧ i.createdAt ≤ toMs)

/-- The rows of the avg query: audits inner-joined to in-window incidents
on `audits.incidentId = incidents.id`, projected to
`json_array_length(changedFieldsJson)`. -/
def avgJoinRows (incs : List Incident) (auds : List Audit) (fromMs toMs : ℕ) :
    List ℕ :=
  auds.flatMap (fun a =>
    (incs.filter (fun i => i.id = a.incidentId ∧ inWindow fromMs toMs i)).map
      (fun _ => a.changedFields.length))

/-- `coalesce(avg(...), 0)`: SQL `avg` of a nonempty row set, 0 when the
row set is empty (where SQL would yield NULL). -/
def sqlAvg (rows : List ℕ) : ℚ :=
  if rows.isEmpty then 0 else ((rows.map (fun n => (n : ℚ))).sum) / rows.length

/-- The `avgChangedFields` field of `getAnalytics`:
`Math.round(coalesce(avg(json_array_length(...)), 0) * 100) / 100`. -/
def avgChangedFields (incs : List Incident) (auds : List Audit)
    (fromMs toMs : ℕ) : ℚ :=
  round2 (sqlAvg (avgJoinRows incs auds fromMs toMs))

/-- Modelled from the spec: the exact (unrounded) mean changed-field-list
length that claim C9 asserts `avgChangedFields` equals. -/
def specMeanChangedFields (incs : List Incident) (auds : List Audit)
    (fromMs toMs : ℕ) : ℚ :=
  sqlAvg (avgJoinRows incs auds fromMs toMs)

/-! ## Risk-zone scorer (`GET /api/riskmap/topzones`) -/

/-- A risk_incidents row (coordinates as exact rationals, timestamp in
epoch milliseconds). -/
structure RiskIncident where
  lat : ℚ
  lng : ℚ
  category : String
  severity : String
  occurredAt : ℤ
deriving DecidableEq, Repr

/-- A risk_repairs row. -/
structure RiskRepair where
  lat : ℚ
  lng : ℚ
  status : String
  openedAt : ℤ
deriving DecidableEq, Repr

/-- A risk_pipelines row: the LineString vertices of `pathGeojson`
(GeoJSON order, `[lng, lat]`) and the install year. -/
structure RiskPipeline where
  pathCoords : List (ℚ × ℚ)
  installYear : ℤ
deriving DecidableEq, Repr

/-- The data the scorer reads, plus the clock and the decay table.
`expDecay d` stands for the JS double `Math.exp(-d / 30)` at integer
`daysAgo = d`; keeping it as a function makes every statement parametric
in the float transcendental. -/
structure RiskEnv where
  incidents : List RiskIncident
  repairs : List RiskRepair
  pipelines : List RiskPipeline
  now : ℤ
  expDecay : ℤ → ℚ

/-- `Math.floor((Date.now() - occurredAt) / (24*60*60*1000))`: floor
division of the millisecond age by one day. -/
def daysAgo (now occurredAt : ℤ) : ℤ :=
  Int.fdiv (now - occurredAt) 86400000

/-- The ternary severity weight: High 3, Medium 2, anything else 1. -/
def severityWeight (sev : String) : ℚ :=
  if sev = "High" then 3 else if sev = "Medium" then 2 else 1

/-- `0.01`, the grid cell side. -/
def gridSize : ℚ := 1 / 100

/-- Membership of a point in the half-open cell
`[lat, lat+0.01) × [lng, lng+0.01)`. -/
def inCell (cellLat cellLng pLat pLng : ℚ) : Bool :=
  decide (cellLat ≤ pLat ∧ pLat < cellLat + gridSize ∧
    cellLng ≤ pLng ∧ pLng < cellLng + gridSize)

/-- The window-filtered incidents that fall in a cell. The date filter
`occurredAt ∈ [from, to]` is the `gte`/`lte` of the fetch query. -/
def cellIncidents (env : RiskEnv) (fromMs toMs : ℤ) (cellLat cellLng : ℚ) :
    List RiskIncident :=
  (env.incidents.filter (fun i => decide (fromMs ≤ i.occurredAt ∧ i.occurredAt ≤ toMs))).filter
    (fun i => inCell cellLat cellLng i.lat i.lng)

/-- The open repairs in a cell (the repairs fetch filters only on
`status = 'Open'`, never on the requested window). -/
def cellRepairs (env : RiskEnv) (cellLat cellLng : ℚ) : List RiskRepair :=
  (env.repairs.filter (fun r => r.status = "Open")).filter
    (fun r => inCell cellLat cellLng r.lat r.lng)

/-- The pipelines with at least one path vertex in the cell (coordinates
are `[lng, lat]` pairs, so the latitude is the second component). -/
def cellPipelines (env : RiskEnv) (cellLat cellLng : ℚ) : List RiskPipeline :=
  env.pipelines.filter
    (fun p => p.pathCoords.any (fun c => inCell cellLat cellLng c.2 c.1))

/-- The per-pipeline age contribution of the code:
`min((2024 - installYear) / 50 * 2, 2)` — the base year 2024 is a
hardcoded literal. -/
def pipeAgeScore (installYear : ℤ) : ℚ :=
  min (((2024 - installYear : ℤ) : ℚ) / 50 * 2) 2

/-- Modelled from the spec: the same contribution with the dynamic
current year the spec describes (`age = currentYear − installYear`);
shared/schema's pipelines carry only `installYear`, the base year is the
point of comparison with `pipeAgeScore`. -/
def pipeAgeScoreSpec (currentYear installYear : ℤ) : ℚ :=
  min (((currentYear - installYear : ℤ) : ℚ) / 50 * 2) 2

/-- The accumulated raw score of one cell, in the accumulation order of
the source: incidents (severity weight times decay), then
`2 × openRepairs`, then the pipeline ages. -/
def cellScore (env : RiskEnv) (fromMs toMs : ℤ) (cellLat cellLng : ℚ) : ℚ :=
  let afterIncidents :=
    (cellIncidents env fromMs toMs cellLat cellLng).foldl
      (fun sc i => sc + severityWeight i.severity * env.expDecay (daysAgo env.now i.occurredAt))
      0
  let afterRepairs := afterIncidents + (cellRepairs env cellLat cellLng).length * 2
  (cellPipelines env cellLat cellLng).foldl
    (fun sc p => sc + pipeAgeScore p.installYear) afterRepairs

/-- The reason strings of one cell, in source push order: high-severity
and recent (≤ 7 days) incident counts, open-repair count, aging
(age > 40) pipeline count; each only when its count is positive. -/
def cellReasons (env : RiskEnv) (fromMs toMs : ℤ) (cellLat cellLng : ℚ) :
    List String :=
  let zoneIncidents := cellIncidents env fromMs toMs cellLat cellLng
  let highCount := (zoneIncidents.filter (fun i => i.severity = "High")).length
  let recentCount := (zoneIncidents.filter
    (fun i => decide (daysAgo env.now i.occurredAt ≤ 7))).length
  let repairCount := (cellRepairs env cellLat cellLng).length
  let zonePipelines := cellPipelines env cellLat cellLng
  let oldCount := (zonePipelines.filter (fun p => decide (2024 - p.installYear > 40))).length
  (if zoneIncidents.length > 0 then
    (if highCount > 0 then [s!"{highCount} high severity incidents"] else []) ++
    (if recentCount > 0 then [s!"{recentCount} recent incidents"] else [])
   else []) ++
  (if repairCount > 0 then [s!"{repairCount} open repairs"] else []) ++
  (if zonePipelines.length > 0 then
    (if oldCount > 0 then [s!"{oldCount} aging pipelines"] else [])
   else [])

/-- `q.toFixed(2)` for the exact hundredth-degree grid coordinates used
in zone ids. -/
def fixed2 (q : ℚ) : String :=
  let n : ℤ := ⌊q * 100⌋
  let m := n.natAbs
  let ip := m / 100
  let fp := m % 100
  let fpStr := if fp < 10 then s!"0{fp}" else s!"{fp}"
  (if n < 0 then "-" else "") ++ s!"{ip}.{fpStr}"

/-- A returned zone: id from the cell origin, center coordinates, the
two-decimal rounded score, the reason strings. -/
structure Zone where
  id : String
  centerLat : ℚ
  centerLng : ℚ
  score : ℚ
  reasons : List String
deriving DecidableEq, Repr

/-- The zone object pushed for a cell. -/
def mkZone (env : RiskEnv) (fromMs toMs : ℤ) (cellLat cellLng : ℚ) : Zone :=
  { id := s!"{fixed2 cellLat}_{fixed2 cellLng}"
    centerLat := cellLat + gridSize / 2
    centerLng := cellLng + gridSize / 2
    score := round2 (cellScore env fromMs toMs cellLat cellLng)
    reasons := cellReasons env fromMs toMs cellLat cellLng }

/-- The grid origins in generation order: the outer loop
`lat = 39.90; lat < 40.10; lat += 0.01` (20 steps in exact arithmetic)
around the inner loop `lng = -75.30; lng < -75.00; lng += 0.01`
(30 steps). -/
def gridCells : List (ℚ × ℚ) :=
  (List.range 20).flatMap (fun (i : ℕ) =>
    (List.range 30).map (fun (j : ℕ) =>
      (399 / 10 + (i : ℚ) / 100, -753 / 10 + (j : ℚ) / 100)))

/-- The zone list before sorting: one zone per cell whose raw score is
strictly positive, in cell generation order. -/
def zonesPre (env : RiskEnv) (fromMs toMs : ℤ) : List Zone :=
  gridCells.filterMap (fun c =>
    if 0 < cellScore env fromMs toMs c.1 c.2 then
      some (mkZone env fromMs toMs c.1 c.2)
    else none)

/-- Stable insertion step for the descending sort by (rounded) score:
the inserted zone, which precedes the list elements in generation order,
goes before the first element whose score it is at least equal to. -/
def insertZone (z : Zone) : List Zone → List Zone
  | [] => [z]
  | a :: rest =>
    if a.score ≤ z.score then z :: a :: rest else a :: insertZone z rest

/-- `zones.sort((a, b) => b.score - a.score)`: a stable descending sort
by score (Array.prototype.sort is stable). -/
def sortZonesDesc : List Zone → List Zone
  | [] => []
  | z :: rest => insertZone z (sortZonesDesc rest)

/-- `GET /api/riskmap/topzones`: score every cell, keep the raw-positive
ones, sort descending by rounded score, return the first `n`. -/
def topZones (env : RiskEnv) (fromMs toMs : ℤ) (n : ℕ) : List Zone :=
  (sortZonesDesc (zonesPre env fromMs toMs)).take n

/-! ## Concrete instances used by witnesses and counterexamples -/

/-- A sample point inside the first grid cell `[39.90, 39.91) × [-75.30, -75.29)`. -/
def ptLat : ℚ := 39905 / 1000

/-- Longitude of the sample point. -/
def ptLng : ℚ := -75295 / 1000

/-- One High-severity incident at the sample point, occurring at the
clock instant itself. -/
def riskInc0 : RiskIncident :=
  { lat := ptLat, lng := ptLng, category := "Leak", severity := "High",
    occurredAt := 1000000 }

/-- Environment with just `riskInc0` and a decay table with value 1 at
day 0 (as `Math.exp 0 = 1`). -/
def env5 : RiskEnv :=
  { incidents := [riskInc0], repairs := [], pipelines := [],
    now := 1000000, expDecay := fun _ => 1 }

/-- One pipeline installed in 2000 with a path vertex at the sample
point (GeoJSON `[lng, lat]` order). -/
def pipe0 : RiskPipeline :=
  { pathCoords := [(ptLng, ptLat)], installYear := 2000 }

/-- Environment with just `pipe0`. -/
def env5c : RiskEnv :=
  { incidents := [], repairs := [], pipelines := [pipe0],
    now := 0, expDecay := fun _ => 1 }

/-- One open repair at the sample point. -/
def repair0 : RiskRepair :=
  { lat := ptLat, lng := ptLng, status := "Open", openedAt := 0 }

/-- Environment with just `repair0`. -/
def envRepair : RiskEnv :=
  { incidents := [], repairs := [repair0], pipelines := [],
    now := 0, expDecay := fun _ => 1 }

/-- A Low-severity incident at the sample point, 300 days old at
`now = 0` (300 days = 25 920 000 000 ms). -/
def riskIncOld : RiskIncident :=
  { lat := ptLat, lng := ptLng, category := "Other", severity := "Low",
    occurredAt := -25920000000 }

/-- Environment with just `riskIncOld`, whose decay table carries the
value of `Math.exp(-300/30) = exp(-10) ≈ 1/22026` at day 300 (see
`exp_neg_ten_lt_inv200` below for the bound making this value realistic). -/
def envTiny : RiskEnv :=
  { incidents := [riskIncOld], repairs := [], pipelines := [],
    now := 0, expDecay := fun d => if d = 300 then 1 / 22026 else 1 }

/-- Window start covering the 300-day-old incident. -/
def fromTiny : ℤ := -26000000000

/-- An incident row used by the analytics counterexample. -/
def inc9 : Incident :=
  { id := 1, address := none, description := "d", category := .Other,
    severity := .Low, summary := "s", nextSteps := [], customerMessage := "c",
    lat := none, lng := none, createdAt := 10, updatedAt := 10 }

/-- Audit rows for the analytics counterexample, with a given
changed-field list. -/
def aud9 (k : ℕ) (cf : List String) : Audit :=
  { id := k, incidentId := 1, beforeJson := "", afterJson := "",
    changedFields := cf, createdAt := 10 }

/-! ## Theorems about the rule engine (claims C6 and C7) -/

/-- C6 (corrected): the claim "gas/leak descriptions always get severity
High" fails on the code: for the description "minor gas", which contains
"gas", the severity-override pass forces Low ("minor" matches and no
High-override keyword is present), so the rule engine returns severity
Low, not High. -/
theorem c6_counterexample_minor_gas :
    containsKw (lowerStr "minor gas") "gas" = true ∧
    ¬ ((dummyEnrichIncident ⟨none, "minor gas"⟩).category = Category.Leak ∧
       (dummyEnrichIncident ⟨none, "minor gas"⟩).severity = Severity.High) := by
  exact ⟨by decide, by decide⟩

/-- C6 (amended): for every description whose lower-cased text contains
"gas" or "leak", the rule engine returns category Leak; the severity is
High unless the text also contains "minor" or "small" and none of
"emergency"/"urgent"/"dangerous", in which case the override pass forces
Low. -/
theorem c6_gas_leak_classification (request : EnrichRequest)
    (h : containsKw (lowerStr request.description) "gas" = true ∨
         containsKw (lowerStr request.description) "leak" = true) :
    (dummyEnrichIncident request).category = Category.Leak ∧
    (dummyEnrichIncident request).severity =
      (if containsKw (lowerStr request.description) "emergency" ||
          containsKw (lowerStr request.description) "urgent" ||
          containsKw (lowerStr request.description) "dangerous" then Severity.High
       else if containsKw (lowerStr request.description) "minor" ||
          containsKw (lowerStr request.description) "small" then Severity.Low
       else Severity.High) := by
  rcases h with h | h <;>
    constructor <;>
    simp [dummyEnrichIncident, dummyClassifyBase, dummyAdjustSeverity, h]

/-- Witness for C6 (amended) at the description "gas leak". -/
theorem c6_witness :
    (dummyEnrichIncident ⟨none, "gas leak"⟩).category = Category.Leak ∧
    (dummyEnrichIncident ⟨none, "gas leak"⟩).severity =
      (if containsKw (lowerStr "gas leak") "emergency" ||
          containsKw (lowerStr "gas leak") "urgent" ||
          containsKw (lowerStr "gas leak") "dangerous" then Severity.High
       else if containsKw (lowerStr "gas leak") "minor" ||
          containsKw (lowerStr "gas leak") "small" then Severity.Low
       else Severity.High) :=
  c6_gas_leak_classification ⟨none, "gas leak"⟩ (Or.inl (by decide))

/-- C7 (confirmed): any description whose lower-cased text contains
"emergency", "urgent" or "dangerous" gets severity High, whatever the
category pass produced, because the override pass runs afterwards and
its High branch takes precedence. -/
theorem c7_override_forces_high (request : EnrichRequest)
    (h : containsKw (lowerStr request.description) "emergency" = true ∨
         containsKw (lowerStr request.description) "urgent" = true ∨
         containsKw (lowerStr request.description) "dangerous" = true) :
    (dummyEnrichIncident request).severity = Severity.High := by
  rcases h with h | h | h <;>
    simp [dummyEnrichIncident, dummyAdjustSeverity, h]

/-- Witness for C7 at the description "urgent meter reading". -/
theorem c7_witness :
    (dummyEnrichIncident ⟨none, "urgent meter reading"⟩).severity = Severity.High :=
  c7_override_forces_high ⟨none, "urgent meter reading"⟩ (Or.inr (Or.inl (by decide)))

/-! ## Theorems about the remote provider (claim C1) -/

/-- C1 (confirmed): the remote classification path is total — whenever it
fails at any step (network error, missing `choices[0].message.content`,
`JSON.parse` failure, or `enrichResponseSchema` validation failure), the
returned value is exactly the deterministic rule engine's result for the
same request, and the `/api/enrich` route replies 200 with that valid
classification rather than a 5xx. -/
theorem c1_remote_failure_falls_back (parseJson : String → Option JsonVal)
    (remote : RemoteOutcome) (request : EnrichRequest)
    (h : remote = .netErr ∨ remote = .reply none ∨
      ∃ content, remote = .reply (some content) ∧
        (parseJson content = none ∨
         ∃ j, parseJson content = some j ∧ enrichResponseParse j = none)) :
    openAIEnrichIncident parseJson remote request = dummyEnrichIncident request ∧
    enrichRoute parseJson remote (some request) =
      .ok (dummyEnrichIncident request) := by
  have hmain : openAIEnrichIncident parseJson remote request =
      dummyEnrichIncident request := by
    rcases h with h | h | ⟨content, hc, h⟩
    · subst h; rfl
    · subst h; rfl
    · subst hc
      rcases h with h | ⟨j, hj, hv⟩
      · simp [openAIEnrichIncident, h]
      · simp [openAIEnrichIncident, hj, hv]
  exact ⟨hmain, by simp [enrichRoute, hmain]⟩

/-- Witness for C1: a reply whose body fails to parse as JSON falls back
to the rule engine. -/
theorem c1_witness :
    openAIEnrichIncident (fun _ => none) (.reply (some "not json")) ⟨none, "gas odor"⟩ =
      dummyEnrichIncident ⟨none, "gas odor"⟩ ∧
    enrichRoute (fun _ => none) (.reply (some "not json")) (some ⟨none, "gas odor"⟩) =
      .ok (dummyEnrichIncident ⟨none, "gas odor"⟩) :=
  c1_remote_failure_falls_back (fun _ => none) (.reply (some "not json"))
    ⟨none, "gas odor"⟩ (Or.inr (Or.inr ⟨"not json", rfl, Or.inl rfl⟩))

/-! ## Theorems about the audit diff (claim C2) -/

/-- C2 (confirmed): the changed-field list is exactly the sublist of the
fixed field-check order (category, severity, summary, nextSteps,
customerMessage) whose fields differ — nextSteps by serialized equality
of the ordered list; an unmodified suggestion yields the empty list, and
a severity-only edit yields exactly ["severity"]. -/
theorem c2_changed_fields (before after : EnrichFields) :
    changedFields before after = diffFieldOrder.filter (fieldDiffers before after) ∧
    (before = after → changedFields before after = []) ∧
    (before.category = after.category → before.summary = after.summary →
     before.nextSteps = after.nextSteps →
     before.customerMessage = after.customerMessage →
     before.severity ≠ after.severity →
     changedFields before after = ["severity"]) := by
  refine ⟨?_, ?_, ?_⟩
  · simp only [changedFields, diffFieldOrder, List.filter, fieldDiffers]
    split_ifs <;> simp_all
  · intro h; subst h; simp [changedFields]
  · intro h1 h2 h3 h4 h5
    simp [changedFields, h1, h2, h3, h4, h5]

/-- Witness for C2: a suggestion whose severity alone was edited before
save diffs to exactly ["severity"]. -/
theorem c2_witness :
    changedFields
      { category := "Leak", severity := "High", summary := "s",
        nextSteps := ["a", "b"], customerMessage := "m" }
      { category := "Leak", severity := "Medium", summary := "s",
        nextSteps := ["a", "b"], customerMessage := "m" } = ["severity"] :=
  (c2_changed_fields _ _).2.2 rfl rfl rfl rfl (by decide)

/-! ## Theorems about the create-incident handler (claim C3) -/

/-- C3 (confirmed): when an AI suggestion accompanies the request, a
throw while writing the AiSuggestion or the Audit row is caught inside
the handler: whichever of the two secondary writes fails, the response is
still the created incident and that incident is persisted in the
resulting store. -/
theorem c3_audit_failure_is_caught (s : Store) (now : ℕ) (data : InsertIncident)
    (before : EnrichFields) (sugRawJson modelName : String)
    (sugWriteFails auditWriteFails : Bool) :
    (postIncident s now (some data) (some before) sugRawJson modelName
        sugWriteFails auditWriteFails).2 = .ok (s.createIncident data now).2 ∧
    (s.createIncident data now).2 ∈
      (postIncident s now (some data) (some before) sugRawJson modelName
        sugWriteFails auditWriteFails).1.incidents := by
  cases sugWriteFails <;> cases auditWriteFails <;>
    simp [postIncident, Store.createIncident, Store.createAiSuggestion,
      Store.createAudit]

/-! ## Theorems about the analytics aggregator (claim C9) -/

/-- C9 (corrected): the claim "avgChangedFields equals the mean
changed-field-list length" fails on the code because the handler rounds
the average to two decimals: with one in-window incident carrying three
audits of changed-field lengths 1, 0, 0, the mean is 1/3 but the code
returns 0.33. -/
theorem c9_counterexample_rounding :
    avgChangedFields [inc9] [aud9 1 ["severity"], aud9 2 [], aud9 3 []] 0 100 =
      33 / 100 ∧
    specMeanChangedFields [inc9] [aud9 1 ["severity"], aud9 2 [], aud9 3 []] 0 100 =
      1 / 3 ∧
    ((33 : ℚ) / 100 ≠ 1 / 3) := by
  have hrows : avgJoinRows [inc9] [aud9 1 ["severity"], aud9 2 [], aud9 3 []] 0 100 =
      [1, 0, 0] := by decide
  refine ⟨?_, ?_, by norm_num⟩
  · rw [avgChangedFields, hrows]
    norm_num [sqlAvg, round2, round_eq]
  · rw [specMeanChangedFields, hrows]
    norm_num [sqlAvg]

/-- C9 (amended): `avgChangedFields` equals the mean changed-field-list
length over audits of in-window incidents rounded to two decimals
(`Math.round(mean*100)/100`); over an empty audit row set the result is
0 — never NaN, null, or an error (the SQL NULL of an empty avg is
coalesced to 0 before rounding). -/
theorem c9_avg_changed_fields (incs : List Incident) (auds : List Audit)
    (fromMs toMs : ℕ) :
    avgChangedFields incs auds fromMs toMs =
      round2 (specMeanChangedFields incs auds fromMs toMs) ∧
    (avgJoinRows incs auds fromMs toMs = [] →
      avgChangedFields incs auds fromMs toMs = 0) ∧
    (avgJoinRows incs auds fromMs toMs ≠ [] →
      avgChangedFields incs auds fromMs toMs =
        round2 ((((avgJoinRows incs auds fromMs toMs).map (fun n => (n : ℚ))).sum) /
          (avgJoinRows incs auds fromMs toMs).length)) := by
  refine ⟨rfl, ?_, ?_⟩
  · intro h
    simp [avgChangedFields, sqlAvg, h, round2]
  · intro h
    simp [avgChangedFields, sqlAvg, List.isEmpty_iff, h]

/-- Witness for C9 (amended): the empty database yields 0. -/
theorem c9_witness : avgChangedFields [] [] 0 0 = 0 :=
  (c9_avg_changed_fields [] [] 0 0).2.1 rfl

/-! ## Theorems about export / import (claim C8) -/

/-- The `|| null` coercion is the identity on every address a stored row
can carry (stored rows never hold the empty string, since every insert
path runs the same coercion). -/
theorem coerceAddress_eq_self {a : Option String} (h : a ≠ some "") :
    coerceAddress a = a := by
  cases a with
  | none => rfl
  | some s =>
    simp only [coerceAddress, ite_eq_right_iff]
    intro hs
    exact absurd (by rw [hs]) h

/-- Suggestion inserts do not touch the incidents table. -/
theorem foldl_createAiSuggestion_incidents (sugs : List AiSuggestion)
    (st : Store) (nid now : ℕ) :
    (sugs.foldl (fun st sug => (st.createAiSuggestion nid sug.rawJson sug.model
      sug.promptVersion now).1) st).incidents = st.incidents := by
  induction sugs generalizing st with
  | nil => rfl
  | cons sug rest ih =>
    rw [List.foldl_cons, ih]
    rfl

/-- Audit inserts do not touch the incidents table. -/
theorem foldl_createAudit_incidents (auds : List Audit)
    (st : Store) (nid now : ℕ) :
    (auds.foldl (fun st a => (st.createAudit nid a.beforeJson a.afterJson
      a.changedFields now).1) st).incidents = st.incidents := by
  induction auds generalizing st with
  | nil => rfl
  | cons a rest ih =>
    rw [List.foldl_cons, ih]
    rfl

/-- Every import iteration counts one of inserted/skipped. -/
theorem importLoop_counts (now : ℕ) (failOracle : ℕ → Bool)
    (items : List ExportPayload) :
    ∀ (s : Store) (k inserted skipped : ℕ),
      (importLoop now failOracle items s k inserted skipped).2.1 +
      (importLoop now failOracle items s k inserted skipped).2.2 =
      inserted + skipped + items.length := by
  induction items with
  | nil => intro s k inserted skipped; simp [importLoop]
  | cons item rest ih =>
    intro s k inserted skipped
    simp only [importLoop]
    split
    · rw [ih]; simp [List.length_cons]; omega
    · rw [ih]; simp [List.length_cons]; omega

/-- C8 (confirmed): (1) exporting an incident and importing the payload
into a fresh store re-creates an incident with the same address,
description, category, severity, summary, nextSteps and customerMessage,
only identity and timestamps differing; (2) when the payload's id already
exists in the store the item is skipped and the store is untouched;
(3) for every batch and every per-item failure pattern, the
`{inserted, skipped, total}` response accounts for every item
(inserted + skipped = total = batch length), so per-item failures never
abort the batch. -/
theorem c8_export_import_roundtrip :
    (∀ (s : Store) (id : ℕ) (payload : ExportPayload) (now : ℕ),
      s.exportIncident id = some payload →
      payload.incident.address ≠ some "" →
      (Store.importIncidents emptyStore now [payload] (fun _ => false)).2 =
        ⟨1, 0, 1⟩ ∧
      ∃ ninc,
        (Store.importIncidents emptyStore now [payload] (fun _ => false)).1.incidents =
          [ninc] ∧
        sameCoreFields ninc payload.incident) ∧
    (∀ (s : Store) (payload : ExportPayload) (now : ℕ),
      payload.incident.id ≠ 0 →
      (s.getIncident payload.incident.id).isSome = true →
      Store.importIncidents s now [payload] (fun _ => false) = (s, ⟨0, 1, 1⟩)) ∧
    (∀ (s : Store) (now : ℕ) (items : List ExportPayload) (failOracle : ℕ → Bool),
      (s.importIncidents now items failOracle).2.inserted +
        (s.importIncidents now items failOracle).2.skipped =
        (s.importIncidents now items failOracle).2.total ∧
      (s.importIncidents now items failOracle).2.total = items.length) := by
  refine ⟨?_, ?_, ?_⟩
  · intro s id payload now _hexp haddr
    have h2 : (importOne emptyStore now payload false).2 = true := by
      simp [importOne, emptyStore, Store.getIncident]
    have h1 : (importOne emptyStore now payload false).1.incidents =
        [(emptyStore.createIncident (insertOfIncident payload.incident) now).2] := by
      simp only [importOne, emptyStore, Store.getIncident, List.find?_nil,
        Option.isSome_none, Bool.false_eq_true, and_false, if_false,
        ite_false]
      rw [foldl_createAudit_incidents, foldl_createAiSuggestion_incidents]
      simp [Store.createIncident, emptyStore]
    constructor
    · simp [Store.importIncidents, importLoop, h2]
    · refine ⟨(emptyStore.createIncident (insertOfIncident payload.incident) now).2,
        ?_, ?_⟩
      · have hfst : (Store.importIncidents emptyStore now [payload]
            (fun _ => false)).1 = (importOne emptyStore now payload false).1 := by
          simp [Store.importIncidents, importLoop, h2]
        rw [hfst, h1]
      · unfold sameCoreFields
        exact ⟨coerceAddress_eq_self haddr, rfl, rfl, rfl, rfl, rfl, rfl⟩
  · intro s payload now hid hsome
    have hone : importOne s now payload false = (s, false) := by
      simp [importOne, hid, hsome]
    simp [Store.importIncidents, importLoop, hone]
  · intro s now items failOracle
    refine ⟨?_, rfl⟩
    simpa [Store.importIncidents] using
      importLoop_counts now failOracle items s 0 0 0

/-- Witness data: a store holding one incident created through the store
API. -/
def storeOne : Store :=
  (emptyStore.createIncident
    { address := some "1422 Pine Street", description := "strong gas odor",
      category := .Leak, severity := .High, summary := "Leak incident reported.",
      nextSteps := ["Dispatch emergency response team immediately"],
      customerMessage := "Please evacuate.", lat := none, lng := none } 5).1

/-- Witness for C8: exporting the single incident of `storeOne` and
importing it into a fresh store re-creates its core fields. -/
theorem c8_witness :
    (Store.importIncidents emptyStore 9
        [(storeOne.exportIncident 1).get (by decide)] (fun _ => false)).2 =
      ⟨1, 0, 1⟩ ∧
    ∃ ninc,
      (Store.importIncidents emptyStore 9
          [(storeOne.exportIncident 1).get (by decide)] (fun _ => false)).1.incidents =
        [ninc] ∧
      sameCoreFields ninc ((storeOne.exportIncident 1).get (by decide)).incident :=
  (c8_export_import_roundtrip.1 storeOne 1
    ((storeOne.exportIncident 1).get (by decide)) 9
    (by decide) (by decide))

/-! ## Risk-map infrastructure lemmas -/

/-- Membership through the stable insertion step. -/
theorem mem_insertZone {a z : Zone} {l : List Zone} :
    a ∈ insertZone z l ↔ a = z ∨ a ∈ l := by
  induction l with
  | nil => simp [insertZone]
  | cons b t ih =>
    simp only [insertZone]
    split
    · simp
    · simp only [List.mem_cons, ih]
      tauto

/-- Membership is preserved by the stable sort. -/
theorem mem_sortZonesDesc {a : Zone} {l : List Zone} :
    a ∈ sortZonesDesc l ↔ a ∈ l := by
  induction l with
  | nil => simp [sortZonesDesc]
  | cons z t ih => simp [sortZonesDesc, mem_insertZone, ih]

/-- The insertion step adds one element. -/
theorem length_insertZone (z : Zone) (l : List Zone) :
    (insertZone z l).length = l.length + 1 := by
  induction l with
  | nil => rfl
  | cons b t ih =>
    simp only [insertZone]
    split
    · simp
    · simp [ih]

/-- The stable sort preserves length. -/
theorem length_sortZonesDesc (l : List Zone) :
    (sortZonesDesc l).length = l.length := by
  induction l with
  | nil => rfl
  | cons z t ih => simp [sortZonesDesc, length_insertZone, ih]

/-- Inserting into a non-increasing list keeps it non-increasing. -/
theorem pairwise_insertZone {z : Zone} {l : List Zone}
    (h : l.Pairwise (fun x y => y.score ≤ x.score)) :
    (insertZone z l).Pairwise (fun x y => y.score ≤ x.score) := by
  induction l with
  | nil => simp [insertZone]
  | cons b t ih =>
    rw [List.pairwise_cons] at h
    simp only [insertZone]
    split
    · rename_i hle
      refine List.pairwise_cons.2 ⟨?_, List.pairwise_cons.2 ⟨h.1, h.2⟩⟩
      intro w hw
      rcases List.mem_cons.1 hw with rfl | hw
      · exact hle
      · exact le_trans (h.1 w hw) hle
    · rename_i hgt
      push_neg at hgt
      refine List.pairwise_cons.2 ⟨?_, ih h.2⟩
      intro w hw
      rcases mem_insertZone.1 hw with rfl | hw
      · exact le_of_lt hgt
      · exact h.1 w hw
/-- The result of the stable sort is non-increasing in score. -/
theorem sorted_sortZonesDesc (l : List Zone) :
    (sortZonesDesc l).Pairwise (fun x y => y.score ≤ x.score) := by
  induction l with
  | nil => simp [sortZonesDesc]
  | cons z t ih => exact pairwise_insertZone ih

/-- The insertion step walks only past elements of strictly greater
score, so it inserts before every element of equal score: filtering at
any score value commutes with insertion. -/
theorem filter_insertZone (z : Zone) (l : List Zone) (s : ℚ) :
    (insertZone z l).filter (fun x => decide (x.score = s)) =
      if z.score = s then z :: l.filter (fun x => decide (x.score = s))
      else l.filter (fun x => decide (x.score = s)) := by
  induction l with
  | nil =>
    simp only [insertZone, List.filter]
    split <;> simp_all
  | cons b t ih =>
    simp only [insertZone]
    split
    · rename_i hle
      simp only [List.filter]
      split <;> split <;> simp_all
    · rename_i hgt
      push_neg at hgt
      by_cases hzs : z.score = s
      · have hbs : ¬ (b.score = s) := by
          intro hb
          exact absurd (hb ▸ hgt) (by simp [hzs])
        simp [List.filter_cons, hzs, hbs, ih]
      · simp [List.filter_cons, hzs, ih]

/-- Stability of the sort: the sublist of zones at any fixed score is
exactly the one of the unsorted list, in the same (generation) order. -/
theorem filter_sortZonesDesc (l : List Zone) (s : ℚ) :
    (sortZonesDesc l).filter (fun x => decide (x.score = s)) =
      l.filter (fun x => decide (x.score = s)) := by
  induction l with
  | nil => rfl
  | cons z t ih =>
    rw [sortZonesDesc, filter_insertZone, List.filter_cons]
    split
    · rename_i h
      rw [if_pos (by simpa using h), ih]
    · rename_i h
      rw [if_neg (by simpa using h), ih]

/-- Accumulating with `+ f x` from `a` is `a` plus the mapped sum. -/
theorem foldl_add_map {α : Type} (f : α → ℚ) (a : ℚ) (l : List α) :
    l.foldl (fun sc x => sc + f x) a = a + (l.map f).sum := by
  induction l generalizing a with
  | nil => simp
  | cons x t ih => simp [List.foldl_cons, ih, add_assoc]

/-- Characterization of grid membership. -/
theorem mem_gridCells {c : ℚ × ℚ} :
    c ∈ gridCells ↔
      ∃ i : ℕ, i < 20 ∧ ∃ j : ℕ, j < 30 ∧
        c = (399 / 10 + (i : ℚ) / 100, -753 / 10 + (j : ℚ) / 100) := by
  constructor
  · intro h
    rw [gridCells, List.mem_flatMap] at h
    obtain ⟨i, hi, hc⟩ := h
    rw [List.mem_range] at hi
    rw [List.mem_map] at hc
    obtain ⟨j, hj, rfl⟩ := hc
    rw [List.mem_range] at hj
    exact ⟨i, hi, j, hj, rfl⟩
  · rintro ⟨i, hi, j, hj, rfl⟩
    rw [gridCells, List.mem_flatMap]
    exact ⟨i, List.mem_range.2 hi, List.mem_map.2 ⟨j, List.mem_range.2 hj, rfl⟩⟩

set_option maxRecDepth 4000 in
/-- The grid has 600 cells. -/
theorem gridCells_length : gridCells.length = 600 := by decide

/-- A zone is produced exactly by the raw-positive cells. -/
theorem mem_zonesPre {z : Zone} {env : RiskEnv} {fromMs toMs : ℤ} :
    z ∈ zonesPre env fromMs toMs ↔
      ∃ c ∈ gridCells, 0 < cellScore env fromMs toMs c.1 c.2 ∧
        z = mkZone env fromMs toMs c.1 c.2 := by
  simp only [zonesPre, List.mem_filterMap]
  constructor
  · rintro ⟨c, hc, hf⟩
    by_cases hpos : 0 < cellScore env fromMs toMs c.1 c.2
    · rw [if_pos hpos] at hf
      exact ⟨c, hc, hpos, (Option.some_inj.1 hf).symm⟩
    · rw [if_neg hpos] at hf
      cases hf
  · rintro ⟨c, hc, hpos, rfl⟩
    exact ⟨c, hc, by rw [if_pos hpos]⟩

/-- A positive rational rounds to a nonnegative two-decimal value. -/
theorem round2_nonneg_of_pos {q : ℚ} (h : 0 < q) : 0 ≤ round2 q := by
  unfold round2
  have h1 : (0 : ℤ) ≤ round (q * 100) := by
    rw [round_eq]
    refine Int.floor_nonneg.2 ?_
    positivity
  have h2 : (0 : ℚ) ≤ (round (q * 100) : ℚ) := by exact_mod_cast h1
  positivity

/-- Every scoring cell's zone is in the full (n = 600) top-zone list. -/
theorem mem_topZones_all (env : RiskEnv) (fromMs toMs : ℤ) (c : ℚ × ℚ)
    (hc : c ∈ gridCells) (hpos : 0 < cellScore env fromMs toMs c.1 c.2) :
    mkZone env fromMs toMs c.1 c.2 ∈ topZones env fromMs toMs 600 := by
  have hpre : mkZone env fromMs toMs c.1 c.2 ∈ zonesPre env fromMs toMs :=
    mem_zonesPre.2 ⟨c, hc, hpos, rfl⟩
  have hlen : (sortZonesDesc (zonesPre env fromMs toMs)).length ≤ 600 := by
    rw [length_sortZonesDesc]
    calc (zonesPre env fromMs toMs).length ≤ gridCells.length :=
      List.length_filterMap_le _ _
    _ = 600 := gridCells_length
  rw [topZones, List.take_of_length_le hlen]
  exact mem_sortZonesDesc.2 hpre

/-! ## Concrete cell evaluations -/

/-- The sample point lies in the first grid cell. -/
theorem inCell_pt : inCell (399 / 10) (-753 / 10) ptLat ptLng = true := by
  simp only [inCell, gridSize, ptLat, ptLng, decide_eq_true_eq]
  norm_num

/-- The first cell of `env5` holds exactly `riskInc0`. -/
theorem cellIncidents_env5 :
    cellIncidents env5 0 2000000 (399 / 10) (-753 / 10) = [riskInc0] := by
  simp [cellIncidents, env5, riskInc0, inCell_pt]

/-- No repairs in `env5`. -/
theorem cellRepairs_env5 : cellRepairs env5 (399 / 10) (-753 / 10) = [] := by
  simp [cellRepairs, env5]

/-- No pipelines in `env5`. -/
theorem cellPipelines_env5 : cellPipelines env5 (399 / 10) (-753 / 10) = [] := by
  simp [cellPipelines, env5]

/-- The incident of `env5` occurred at the clock instant. -/
theorem daysAgo_env5 : daysAgo env5.now riskInc0.occurredAt = 0 := by
  simp [daysAgo, env5, riskInc0]

/-- The first cell of `env5c` holds exactly `pipe0`. -/
theorem cellPipelines_env5c :
    cellPipelines env5c (399 / 10) (-753 / 10) = [pipe0] := by
  simp [cellPipelines, env5c, pipe0, inCell_pt]

/-- The hardcoded base year gives the 2000-vintage pipeline an age of 24
years, hence a contribution of 24/25 = 0.96. -/
theorem cellScore_env5c : cellScore env5c 0 0 (399 / 10) (-753 / 10) = 24 / 25 := by
  simp only [cellScore, cellPipelines_env5c]
  simp [cellIncidents, cellRepairs, env5c, pipeAgeScore, pipe0]
  norm_num [min_def]

/-- The first cell of `envRepair` holds exactly `repair0`. -/
theorem cellRepairs_envRepair :
    cellRepairs envRepair (399 / 10) (-753 / 10) = [repair0] := by
  simp [cellRepairs, envRepair, repair0, inCell_pt]

/-- One open repair scores 2. -/
theorem cellScore_envRepair : cellScore envRepair 0 0 (399 / 10) (-753 / 10) = 2 := by
  simp only [cellScore, cellRepairs_envRepair]
  simp [cellIncidents, cellPipelines, envRepair]

/-- The first cell of `envTiny` holds exactly `riskIncOld`. -/
theorem cellIncidents_envTiny :
    cellIncidents envTiny fromTiny 0 (399 / 10) (-753 / 10) = [riskIncOld] := by
  simp [cellIncidents, envTiny, riskIncOld, fromTiny, inCell_pt]

/-- The old incident is 300 days old. -/
theorem daysAgo_old : daysAgo envTiny.now riskIncOld.occurredAt = 300 := by
  simp [daysAgo, envTiny, riskIncOld]

/-- The raw score of the cell holding only the 300-day-old Low incident
is its decay value, 1/22026 — strictly positive. -/
theorem cellScore_envTiny :
    cellScore envTiny fromTiny 0 (399 / 10) (-753 / 10) = 1 / 22026 := by
  simp only [cellScore, cellIncidents_envTiny, List.foldl_cons, List.foldl_nil]
  rw [daysAgo_old]
  simp [cellRepairs, cellPipelines, envTiny, severityWeight, riskIncOld]

/-- 1/22026 rounds to 0 at two decimals. -/
theorem round2_tiny : round2 (1 / 22026) = 0 := by
  norm_num [round2, round_eq]

/-- The first cell is a grid cell. -/
theorem cell0_mem : ((399 : ℚ) / 10, (-753 : ℚ) / 10) ∈ gridCells := by
  refine mem_gridCells.2 ⟨0, by norm_num, 0, by norm_num, ?_⟩
  norm_num

/-- The zone of the single open repair is returned by the full top-zone
query. -/
theorem memRepairZone :
    mkZone envRepair 0 0 (399 / 10) (-753 / 10) ∈ topZones envRepair 0 0 600 := by
  have hpos : 0 < cellScore envRepair 0 0
      (((399 : ℚ) / 10, (-753 : ℚ) / 10)).1 (((399 : ℚ) / 10, (-753 : ℚ) / 10)).2 := by
    show 0 < cellScore envRepair 0 0 (399 / 10) (-753 / 10)
    rw [cellScore_envRepair]
    norm_num
  exact mem_topZones_all envRepair 0 0 ((399 : ℚ) / 10, (-753 : ℚ) / 10) cell0_mem hpos

/-- The decay value 1/22026 of `envTiny` is realistic: the double
`Math.exp(-300/30)` is below 1/200, so it rounds to 0.00 at two decimals
(any value below 1/200 does; 1/22026 approximates exp(-10) itself). -/
theorem exp_neg_ten_lt_inv200 : Real.exp (-(300 : ℝ) / 30) < 1 / 200 := by
  have h1 : (-(300 : ℝ)) / 30 = -10 := by norm_num
  rw [h1, Real.exp_neg]
  have h3 : Real.exp 10 = Real.exp 1 ^ 10 := by
    rw [← Real.exp_nat_mul]
    norm_num
  have h4 : (200 : ℝ) < Real.exp 10 := by
    rw [h3]
    have h5 : (2.7 : ℝ) ^ 10 ≤ Real.exp 1 ^ 10 := by
      refine pow_le_pow_left₀ (by norm_num) ?_ 10
      calc (2.7 : ℝ) ≤ 2.7182818283 := by norm_num
      _ ≤ Real.exp 1 := le_of_lt Real.exp_one_gt_d9
    calc (200 : ℝ) < 2.7 ^ 10 := by norm_num
    _ ≤ Real.exp 1 ^ 10 := h5
  rw [one_div]
  exact inv_strictAnti₀ (by norm_num) h4

/-- The raw per-cell score decomposes into the three component sums. -/
theorem cellScore_eq (env : RiskEnv) (fromMs toMs : ℤ) (cellLat cellLng : ℚ) :
    cellScore env fromMs toMs cellLat cellLng =
      ((cellIncidents env fromMs toMs cellLat cellLng).map
        (fun i => severityWeight i.severity *
          env.expDecay (daysAgo env.now i.occurredAt))).sum
      + 2 * (cellRepairs env cellLat cellLng).length
      + ((cellPipelines env cellLat cellLng).map
        (fun p => pipeAgeScore p.installYear)).sum := by
  simp only [cellScore]
  rw [foldl_add_map, foldl_add_map]
  ring

/-! ## Theorems about the risk-zone scorer (claims C4, C5, C10) -/

/-- C4 (corrected): the claim "topZones never returns a zone with score
≤ 0" fails on the code because the positivity filter tests the raw score
while the returned score is rounded: a cell holding one Low-severity
incident 300 days old has raw score exp(-10) ≈ 1/22026 > 0, so the zone
is kept, but its reported score rounds to exactly 0. -/
theorem c4_counterexample_zero_score :
    ∃ z ∈ topZones envTiny fromTiny 0 600, z.score ≤ 0 := by
  refine ⟨mkZone envTiny fromTiny 0 (399 / 10) (-753 / 10), ?_, ?_⟩
  · have hpos : 0 < cellScore envTiny fromTiny 0
        (((399 : ℚ) / 10, (-753 : ℚ) / 10)).1 (((399 : ℚ) / 10, (-753 : ℚ) / 10)).2 := by
      show 0 < cellScore envTiny fromTiny 0 (399 / 10) (-753 / 10)
      rw [cellScore_envTiny]
      norm_num
    exact mem_topZones_all envTiny fromTiny 0 ((399 : ℚ) / 10, (-753 : ℚ) / 10)
      cell0_mem hpos
  · show round2 (cellScore envTiny fromTiny 0 (399 / 10) (-753 / 10)) ≤ 0
    rw [cellScore_envTiny, round2_tiny]

/-- C4 (amended): every returned zone comes from a cell whose raw
(pre-rounding) score is strictly positive — zero-raw-score cells are
excluded entirely — and its reported rounded score is ≥ 0 (it can be
exactly 0 when the raw score is below 0.005); the returned zones are
sorted in descending order of (rounded) score, ties preserving cell
generation order (at every score value the returned zones are an initial
segment of the generation-ordered zone list); at most n zones are
returned. -/
theorem c4_topzones_properties (env : RiskEnv) (fromMs toMs : ℤ) (n : ℕ) :
    (∀ z ∈ topZones env fromMs toMs n,
      0 ≤ z.score ∧
      ∃ c ∈ gridCells, 0 < cellScore env fromMs toMs c.1 c.2 ∧
        z = mkZone env fromMs toMs c.1 c.2) ∧
    (topZones env fromMs toMs n).Pairwise (fun x y => y.score ≤ x.score) ∧
    (∀ s : ℚ, ∃ rest,
      (topZones env fromMs toMs n).filter (fun z => decide (z.score = s)) ++ rest =
        (zonesPre env fromMs toMs).filter (fun z => decide (z.score = s))) ∧
    (topZones env fromMs toMs n).length ≤ n := by
  refine ⟨?_, ?_, ?_, ?_⟩
  · intro z hz
    have hz' : z ∈ zonesPre env fromMs toMs :=
      mem_sortZonesDesc.1 (List.mem_of_mem_take hz)
    obtain ⟨c, hc, hpos, rfl⟩ := mem_zonesPre.1 hz'
    exact ⟨round2_nonneg_of_pos hpos, c, hc, hpos, rfl⟩
  · exact List.Pairwise.sublist (List.take_sublist n _) (sorted_sortZonesDesc _)
  · intro s
    refine ⟨(List.drop n (sortZonesDesc (zonesPre env fromMs toMs))).filter
      (fun z => decide (z.score = s)), ?_⟩
    rw [topZones, ← List.filter_append, List.take_append_drop, filter_sortZonesDesc]
  · rw [topZones]
    exact List.length_take_le n _

/-- Witness for C4 (amended): the zone of the single open repair of
`envRepair` is returned nonnegative and traced to its positively-scoring
cell. -/
theorem c4_witness :
    0 ≤ (mkZone envRepair 0 0 (399 / 10) (-753 / 10)).score ∧
    ∃ c ∈ gridCells, 0 < cellScore envRepair 0 0 c.1 c.2 ∧
      mkZone envRepair 0 0 (399 / 10) (-753 / 10) = mkZone envRepair 0 0 c.1 c.2 :=
  (c4_topzones_properties envRepair 0 0 600).1 _ memRepairZone

/-- C5 (corrected): the claim computes the pipeline age as
"currentYear − installYear", but the code hardcodes the base year 2024:
at the current year 2026, a pipeline installed in 2000 contributes
24/25 = 0.96 (code, age 24) where the claim's formula gives
26/25 = 1.04 (age 26). -/
theorem c5_counterexample_hardcoded_year :
    cellScore env5c 0 0 (399 / 10) (-753 / 10) = 24 / 25 ∧
    pipeAgeScoreSpec 2026 2000 = 26 / 25 ∧
    ((24 : ℚ) / 25 ≠ 26 / 25) := by
  refine ⟨cellScore_env5c, ?_, by norm_num⟩
  norm_num [pipeAgeScoreSpec, min_def]

/-- C5 (amended): the raw cell score is the sum of
severityWeight × exp(-daysAgo/30) over in-window incidents in the cell
(weights 3/2/1 for High/Medium/Low, daysAgo from now to occurredAt),
plus 2 per open repair in the cell (independent of the window), plus
min(age/50 × 2, 2) per pipeline with a path vertex in the cell, where
age = 2024 − installYear with the hardcoded base year 2024; and a cell
holding exactly one High incident occurring today (daysAgo 0, decay
exp(0) = 1) and nothing else scores 3.0, its reasons containing
"1 high severity incidents" and "1 recent incidents". -/
theorem c5_cell_score (env : RiskEnv) (fromMs toMs : ℤ) (cellLat cellLng : ℚ) :
    cellScore env fromMs toMs cellLat cellLng =
      ((cellIncidents env fromMs toMs cellLat cellLng).map
        (fun i => severityWeight i.severity *
          env.expDecay (daysAgo env.now i.occurredAt))).sum
      + 2 * (cellRepairs env cellLat cellLng).length
      + ((cellPipelines env cellLat cellLng).map
        (fun p => pipeAgeScore p.installYear)).sum ∧
    (∀ i : RiskIncident,
      cellIncidents env fromMs toMs cellLat cellLng = [i] →
      i.severity = "High" →
      daysAgo env.now i.occurredAt = 0 →
      env.expDecay 0 = 1 →
      cellRepairs env cellLat cellLng = [] →
      cellPipelines env cellLat cellLng = [] →
      cellScore env fromMs toMs cellLat cellLng = 3 ∧
      "1 high severity incidents" ∈ cellReasons env fromMs toMs cellLat cellLng ∧
      "1 recent incidents" ∈ cellReasons env fromMs toMs cellLat cellLng) := by
  refine ⟨cellScore_eq env fromMs toMs cellLat cellLng, ?_⟩
  intro i h1 hsev hd hexp h2 h3
  have hreasons : cellReasons env fromMs toMs cellLat cellLng =
      ["1 high severity incidents", "1 recent incidents"] := by
    simp only [cellReasons, h1, h2, h3]
    simp [hsev, hd]
    exact ⟨by decide, by decide⟩
  refine ⟨?_, by rw [hreasons]; simp, by rw [hreasons]; simp⟩
  rw [cellScore_eq, h1, h2, h3]
  simp [hsev, hd, hexp, severityWeight]

/-- Witness for C5 (amended) at `env5`: the concrete one-High-incident
cell scores 3 with the two reason strings. -/
theorem c5_witness :
    cellScore env5 0 2000000 (399 / 10) (-753 / 10) = 3 ∧
    "1 high severity incidents" ∈ cellReasons env5 0 2000000 (399 / 10) (-753 / 10) ∧
    "1 recent incidents" ∈ cellReasons env5 0 2000000 (399 / 10) (-753 / 10) :=
  (c5_cell_score env5 0 2000000 (399 / 10) (-753 / 10)).2 riskInc0
    cellIncidents_env5 rfl daysAgo_env5 rfl cellRepairs_env5 cellPipelines_env5

/-- C10 (confirmed): every returned zone's score is the raw accumulated
cell score rounded to two decimals (Math.round(score × 100) / 100), hence
an integer multiple of 0.01, and the descending sort and top-n truncation
operate on the zone records carrying these rounded scores. -/
theorem c10_scores_rounded (env : RiskEnv) (fromMs toMs : ℤ) (n : ℕ) :
    (∀ z ∈ topZones env fromMs toMs n,
      ∃ c ∈ gridCells,
        z = mkZone env fromMs toMs c.1 c.2 ∧
        z.score = round2 (cellScore env fromMs toMs c.1 c.2) ∧
        ∃ k : ℤ, z.score = (k : ℚ) / 100) ∧
    topZones env fromMs toMs n =
      (sortZonesDesc (zonesPre env fromMs toMs)).take n := by
  refine ⟨?_, rfl⟩
  intro z hz
  obtain ⟨c, hc, hpos, rfl⟩ :=
    mem_zonesPre.1 (mem_sortZonesDesc.1 (List.mem_of_mem_take hz))
  exact ⟨c, hc, rfl, rfl, round (cellScore env fromMs toMs c.1 c.2 * 100), rfl⟩

/-- Witness for C10 at `envRepair`: the repair zone's score is the
rounded raw score and a multiple of 0.01. -/
theorem c10_witness :
    ∃ c ∈ gridCells,
      mkZone envRepair 0 0 (399 / 10) (-753 / 10) = mkZone envRepair 0 0 c.1 c.2 ∧
      (mkZone envRepair 0 0 (399 / 10) (-753 / 10)).score =
        round2 (cellScore envRepair 0 0 c.1 c.2) ∧
      ∃ k : ℤ, (mkZone envRepair 0 0 (399 / 10) (-753 / 10)).score = (k : ℚ) / 100 :=
  (c10_scores_rounded envRepair 0 0 600).1 _ memRepairZone

end IncidentTriage
